import Mathlib

/-!
Shallow embedding of the Paws & Claws clinic backend (`src/db.js`,
`src/server.js`) for checking the natural-language specification.

Modelling conventions:
* SQLite REAL values are modelled by `ℚ`; nullable columns by `Option`.
  `parseFloat` results are modelled as `Option ℚ` where `none` stands for
  `NaN` (parse failure / absent raw value).
* JS string-ish request fields are `Option String` (`none` = absent /
  `undefined` / `null`).
* JS truthiness: for strings, `""` is falsy; for parsed numbers, `0` and
  `NaN` are falsy (hence the `parseFloat(x) || d` fallback also replaces a
  parsed `0`).
* `better-sqlite3` prepared statements throw
  `RangeError: Too few parameter values were provided` when executed with
  fewer bind values than `?` placeholders.  `patientQueries.getById` is
  prepared with two placeholders (`id = ? OR CAST(patient_id AS TEXT) = ?`),
  so the call sites in `server.js` that pass a single value
  (lines 85, 110, 117, 163, 270) raise, and the surrounding `try`/`catch`
  turns each of those requests into a 500 response.
* The `patients` table of the deployed database carries a legacy numeric
  `patient_id` column (populated by the CSV import, `NULL` for rows created
  through the API); we model its `CAST` to text as `Option String`.
* Each handler is a pure function `Store → request data → Response × Store`;
  nondeterministic inputs of the source (current date for invoice refs, the
  time+random check-in id) are passed as explicit extra arguments.
-/

/-- JS `parseFloat(x) || d` for a parsed numeric value (`none` = `NaN`):
both `NaN` and `0` are falsy, so both fall back to the literal `d`. -/
def jsOrQ (v : Option ℚ) (d : ℚ) : ℚ :=
  match v with
  | none => d
  | some q => if q = 0 then d else q

/-- JS `x || d` for a string value: `undefined`/`null` and `""` are falsy. -/
def jsOrStr (o : Option String) (d : String) : String :=
  match o with
  | none => d
  | some s => if s = "" then d else s

/-- JS `x || null` for a string value. -/
def orNull (o : Option String) : Option String :=
  match o with
  | none => none
  | some s => if s = "" then none else some s

/-- JS truthiness of an optional string (`!!x`). -/
def strTruthy (o : Option String) : Bool :=
  match o with
  | none => false
  | some s => s ≠ ""

/-- JS `!x?.trim()`: true when the field is absent or whitespace-only. -/
def isBlank (o : Option String) : Bool :=
  match o with
  | none => true
  | some s => s.trim = ""

/-- A raw JS value destined for `parseFloat`: we record its truthiness and
its parse result (`none` = `NaN`). -/
structure JsRaw where
  truthy : Bool
  parsed : Option ℚ
deriving DecidableEq, Repr

/-- A JS number-ish runtime value as it flows through the invoice status
handler: a finite number, `NaN`, or SQL `NULL` read back as JS `null`. -/
inductive JVal where
  | num (q : ℚ)
  | nan
  | null
deriving DecidableEq, Repr

/-- JS `ToNumber` coercion used by `-` and `Math.max`: `null` coerces to
`0`, `NaN` stays non-numeric. -/
def JVal.toNumber : JVal → Option ℚ
  | .num q => some q
  | .null => some 0
  | .nan => none

/-- JS subtraction (NaN-propagating, `null` coerced to `0`). -/
def jsSub (a b : JVal) : JVal :=
  match a.toNumber, b.toNumber with
  | some x, some y => .num (x - y)
  | _, _ => .nan

/-- JS `Math.max(0, x)`. -/
def jsMax0 (a : JVal) : JVal :=
  match a.toNumber with
  | some x => .num (max 0 x)
  | none => .nan

/-- Binding a JS value into a REAL column: `NaN` is stored as SQL `NULL`. -/
def JVal.toDb : JVal → Option ℚ
  | .num q => some q
  | .nan => none
  | .null => none

/-- Reading a nullable REAL column into JS. -/
def ofDb : Option ℚ → JVal
  | some q => .num q
  | none => .null

/-- Result of `parseFloat` on a request value, as a JS value. -/
def ofParse : Option ℚ → JVal
  | some q => .num q
  | none => .nan

/-- Row of the `patients` table (`db.js` lines 14-28, plus the legacy CSV
`patient_id` column of the deployed database, modelled post-`CAST`). -/
structure Patient where
  id : String
  name : String
  type : Option String
  breed : Option String
  colour : Option String
  age : Option String
  gender : Option String
  weight : Option ℚ
  owner_name : String
  phone : Option String
  email : Option String
  address : Option String
  patient_id : Option String
deriving DecidableEq, Repr

/-- Row of the `checkins` table (`db.js` lines 30-47). -/
structure Checkin where
  id : String
  patient_id : Option String
  patient_name : String
  owner_name : String
  doctor : String
  date : String
  complaint : Option String
  subjective : Option String
  objective : Option String
  assessment : Option String
  plan : Option String
  procedures : Option String
  medications : Option String
  followup : Option String
  status : String
deriving DecidableEq, Repr

/-- Row of the `invoices` table (`db.js` lines 49-66); the five monetary
columns are nullable REAL. -/
structure Invoice where
  ref : String
  patient_id : Option String
  patient_name : String
  patient_type : String
  owner_name : String
  phone : String
  date : String
  subtotal : Option ℚ
  discount : Option ℚ
  total : Option ℚ
  paid_amount : Option ℚ
  balance : Option ℚ
  method : Option String
  status : String
  notes : Option String
deriving DecidableEq, Repr

/-- Row of the `invoice_items` table (`db.js` lines 68-76). -/
structure InvoiceItem where
  invoice_ref : String
  name : String
  quantity : ℚ
  unit_price : ℚ
  discount : ℚ
  total : ℚ
deriving DecidableEq, Repr

/-- The persistent state: the four entity tables and the `counters`
table (an association list `key ↦ value`). -/
structure Store where
  patients : List Patient
  checkins : List Checkin
  invoices : List Invoice
  invoice_items : List InvoiceItem
  counters : List (String × ℕ)
deriving DecidableEq, Repr

/-- The state right after `db.js` start-up: empty tables, counters seeded
by `initCounter.run('invoice', 1)` and `initCounter.run('patient', 10000)`. -/
def initStore : Store :=
  ⟨[], [], [], [], [("invoice", 1), ("patient", 10000)]⟩

/-- `SELECT value FROM counters WHERE key = ?`. -/
def countersGet (cs : List (String × ℕ)) (k : String) : Option ℕ :=
  (cs.find? (fun kv => kv.1 == k)).map (·.2)

/-- `UPDATE counters SET value = value + 1 WHERE key = ?`. -/
def countersInc (cs : List (String × ℕ)) (k : String) : List (String × ℕ) :=
  cs.map (fun kv => if kv.1 == k then (kv.1, kv.2 + 1) else kv)

/-- `nextCounter` (`db.js` lines 91-96): read the current value, return it,
and increment the stored value.  When the key is absent the row is
`undefined` and reading `.value` throws (`none`). -/
def nextCounter (s : Store) (k : String) : Option (ℕ × Store) :=
  match countersGet s.counters k with
  | none => none
  | some v => some (v, { s with counters := countersInc s.counters k })

/-- Decimal digits, least significant first, with structural fuel (so that
concrete values reduce in the kernel); the fuel is irrelevant as long as it
is at least the argument (`natDigitsRevAux_congr`). -/
def natDigitsRevAux : ℕ → ℕ → List ℕ
  | 0, n => [n]
  | fuel + 1, n => if n < 10 then [n] else n % 10 :: natDigitsRevAux fuel (n / 10)

/-- Decimal digits of `n`, least significant first (each `< 10`). -/
def natDigitsRev (n : ℕ) : List ℕ :=
  natDigitsRevAux n n

/-- JS `String(n)` for a natural number: its decimal representation. -/
def natToString (n : ℕ) : String :=
  ⟨((natDigitsRev n).map Nat.digitChar).reverse⟩

/-- JS `s.padStart(w, c)`. -/
def padStart (w : ℕ) (c : Char) (s : String) : String :=
  ⟨List.replicate (w - s.data.length) c ++ s.data⟩

/-- HTTP response envelope: status code, `success` flag, `error` message. -/
structure Response where
  status : ℕ
  success : Bool
  error : Option String
deriving DecidableEq, Repr

/-- `ok(res, data)`: HTTP 200, `{success: true, data}`. -/
def okResp : Response := ⟨200, true, none⟩

/-- `err(res, msg, status)`: `{success: false, error: msg}`. -/
def errResp (msg : String) (status : ℕ) : Response := ⟨status, false, some msg⟩

/-- The `better-sqlite3` error raised when a statement with two `?`
placeholders is executed with a single bind value. -/
def tooFewParams : String := "Too few parameter values were provided"

/-- The row predicate of `patientQueries.getById`:
`id = a OR CAST(patient_id AS TEXT) = b` (a `NULL` legacy column never
matches). -/
def patientMatches (a b : String) (p : Patient) : Bool :=
  p.id == a || (match p.patient_id with
                | some t => t == b
                | none => false)

/-- `patientQueries.getById.get(a, b)` with its two bind values. -/
def patientGetById2 (s : Store) (a b : String) : Option Patient :=
  s.patients.find? (patientMatches a b)

/-- The formatted patient id `'PaCPC-' + String(n).padStart(5, '0')`. -/
def pidString (n : ℕ) : String :=
  "PaCPC-" ++ padStart 5 '0' (natToString n)

/-- `generatePatientId` (`server.js` lines 22-25): consume the `patient`
counter and format the id. -/
def generatePatientId (s : Store) : Option (String × Store) :=
  match nextCounter s "patient" with
  | none => none
  | some (n, s1) => some (pidString n, s1)

/-- `generateInvoiceRef` (`server.js` lines 27-33): the two-digit year and
month of the current date are explicit inputs here. -/
def generateInvoiceRef (s : Store) (yy mm : String) : Option (String × Store) :=
  match nextCounter s "invoice" with
  | none => none
  | some (n, s1) =>
      some ("IN:01-" ++ yy ++ mm ++ "-" ++ padStart 4 '0' (natToString n), s1)

/-- Request body of `POST /api/patients`. -/
structure PatientCreateReq where
  name : Option String
  type : Option String
  breed : Option String
  colour : Option String
  age : Option String
  gender : Option String
  weight : Option JsRaw
  owner_name : Option String
  phone : Option String
  email : Option String
  address : Option String
deriving DecidableEq, Repr

/-- The patient row built by `POST /api/patients` (`server.js` lines
69-82) for a generated id and a request body. -/
def patientOf (pid : String) (r : PatientCreateReq) : Patient :=
  { id := pid
    name := ((r.name.getD "").trim)
    type := orNull r.type
    breed := orNull r.breed
    colour := orNull r.colour
    age := orNull r.age
    gender := orNull r.gender
    weight := match r.weight with
              | none => none
              | some w => if w.truthy then w.parsed else none
    owner_name := ((r.owner_name.getD "").trim)
    phone := orNull r.phone
    email := orNull r.email
    address := orNull r.address
    patient_id := none }

/-- `POST /api/patients` (`server.js` lines 63-87).  Validation first; then
the id is generated (consuming the `patient` counter) and the row inserted.
The final `patientQueries.getById.get(patient.id)` passes one bind value to
a two-placeholder statement, so the handler answers 500 after the insert. -/
def postPatients (s : Store) (r : PatientCreateReq) : Response × Store :=
  if isBlank r.name then (errResp "Pet name is required" 400, s)
  else if isBlank r.owner_name then (errResp "Owner name is required" 400, s)
  else
    match generatePatientId s with
    | none => (errResp "Cannot read properties of undefined" 500, s)
    | some (pid, s1) =>
        (errResp tooFewParams 500, { s1 with patients := s1.patients ++ [patientOf pid r] })

/-- Request body of `PUT /api/patients/:id`. -/
structure PatientUpdateReq where
  name : Option String
  type : Option String
  breed : Option String
  colour : Option String
  age : Option String
  gender : Option String
  weight : Option JsRaw
  owner_name : Option String
  phone : Option String
  email : Option String
  address : Option String
deriving DecidableEq, Repr

/-- The row values written by `patientQueries.update` for a given existing
row and request body (`server.js` lines 95-108): `||` fallbacks for the
required names, `??` fallbacks elsewhere, `!= null` guard for `weight`.
The `id` and legacy `patient_id` columns are not in the SET list. -/
def mergePatient (q existing : Patient) (r : PatientUpdateReq) : Patient :=
  { q with
    name := jsOrStr r.name existing.name
    type := match r.type with | none => existing.type | some v => some v
    breed := match r.breed with | none => existing.breed | some v => some v
    colour := match r.colour with | none => existing.colour | some v => some v
    age := match r.age with | none => existing.age | some v => some v
    gender := match r.gender with | none => existing.gender | some v => some v
    weight := match r.weight with | none => existing.weight | some w => w.parsed
    owner_name := jsOrStr r.owner_name existing.owner_name
    phone := match r.phone with | none => existing.phone | some v => some v
    email := match r.email with | none => existing.email | some v => some v
    address := match r.address with | none => existing.address | some v => some v }

/-- `PUT /api/patients/:id` (`server.js` lines 90-112): look up the row
(two bind values, fine), run the UPDATE, then answer via a one-bind-value
`getById` call, which raises — so the update is persisted but the response
is a 500. -/
def applyPut (existing : Patient) (r : PatientUpdateReq) (idp : String) (q : Patient) : Patient :=
  if q.id == idp then mergePatient q existing r else q

def putPatients (s : Store) (idp : String) (r : PatientUpdateReq) : Response × Store :=
  match patientGetById2 s idp idp with
  | none => (errResp "Patient not found" 404, s)
  | some existing =>
      (errResp tooFewParams 500, { s with patients := s.patients.map (applyPut existing r idp) })

/-- `DELETE /api/patients/:id` (`server.js` lines 115-122): the very first
statement, `patientQueries.getById.get(req.params.id)`, passes one bind
value to a two-placeholder statement and raises, so the handler always
answers 500 and never reaches `patientQueries.delete`. -/
def deletePatients (s : Store) (_idp : String) : Response × Store :=
  (errResp tooFewParams 500, s)

/-- `GET /api/patients/:id` (`server.js` lines 54-60). -/
def getPatient (s : Store) (idp : String) : Response × Option Patient :=
  match patientGetById2 s idp idp with
  | none => (errResp "Patient not found" 404, none)
  | some p => (okResp, some p)

/-- Request body of `POST /api/checkins`. -/
structure CheckinCreateReq where
  patient_id : Option String
  patient_name : Option String
  owner_name : Option String
  doctor : Option String
  date : Option String
  complaint : Option String
  subjective : Option String
  objective : Option String
  assessment : Option String
  plan : Option String
  procedures : Option String
  medications : Option String
  followup : Option String
deriving DecidableEq, Repr

/-- `POST /api/checkins` (`server.js` lines 153-187).  With a truthy
`patient_id` the snapshot lookup `patientQueries.getById.get(patient_id)`
passes one bind value to a two-placeholder statement and raises, so those
requests get a 500 and nothing is inserted.  The generated id (`'CI-' +
Date.now() + random`) is an explicit argument. -/
def postCheckins (s : Store) (cid : String) (r : CheckinCreateReq) : Response × Store :=
  if isBlank r.doctor then (errResp "Doctor name is required" 400, s)
  else if !strTruthy r.date then (errResp "Date is required" 400, s)
  else if strTruthy r.patient_id then (errResp tooFewParams 500, s)
  else
    let c : Checkin :=
      { id := cid
        patient_id := none
        patient_name := jsOrStr r.patient_name ""
        owner_name := jsOrStr r.owner_name ""
        doctor := ((r.doctor.getD "").trim)
        date := r.date.getD ""
        complaint := orNull r.complaint
        subjective := orNull r.subjective
        objective := orNull r.objective
        assessment := orNull r.assessment
        plan := orNull r.plan
        procedures := orNull r.procedures
        medications := orNull r.medications
        followup := orNull r.followup
        status := "open" }
    (okResp, { s with checkins := s.checkins ++ [c] })

/-- `GET /api/checkins/:id` (`server.js` lines 144-150). -/
def getCheckin (s : Store) (cid : String) : Response × Option Checkin :=
  match s.checkins.find? (fun c => c.id == cid) with
  | none => (errResp "Check-in not found" 404, none)
  | some c => (okResp, some c)

/-- `PATCH /api/checkins/:id/status` (`server.js` lines 190-197): rejects a
status outside `{open, done}` with a 400; otherwise runs the UPDATE (a
no-op for an unknown id) and answers 200 `success:true` regardless of
whether any row matched. -/
def patchCheckinStatus (s : Store) (cid : String) (st : Option String) : Response × Store :=
  if !(st == some "open" || st == some "done") then (errResp "Invalid status" 400, s)
  else
    let cs := s.checkins.map (fun c => if c.id == cid then { c with status := st.getD "" } else c)
    (okResp, { s with checkins := cs })

/-- `DELETE /api/checkins/:id` (`server.js` lines 200-205): no existence
check; the DELETE statement runs (a no-op for an unknown id) and the
handler answers 200 `success:true`. -/
def deleteCheckins (s : Store) (cid : String) : Response × Store :=
  (okResp, { s with checkins := s.checkins.filter (fun c => !(c.id == cid)) })

/-- A line item of a `POST /api/invoices` request; the three numeric fields
are recorded post-`parseFloat` (`none` = `NaN`). -/
structure ItemReq where
  name : Option String
  quantity : Option ℚ
  unit_price : Option ℚ
  discount : Option ℚ
deriving DecidableEq, Repr

/-- Request body of `POST /api/invoices`; `paid_amount` is the
`parseFloat` result of the raw field (`none` = `NaN`, which the handler
replaces by `0`). -/
structure InvoiceCreateReq where
  patient_id : Option String
  patient_name : Option String
  patient_type : Option String
  phone : Option String
  owner_name : Option String
  date : Option String
  items : Option (List ItemReq)
  paid_amount : Option ℚ
  method : Option String
  status : Option String
  notes : Option String
deriving DecidableEq, Repr

/-- The computed line item of `server.js` lines 275-281 (the stored name is
filled in by `insertItem`; a request item without a name makes the bind
fail, handled in the handler). -/
def lineOf (refv : String) (it : ItemReq) : InvoiceItem :=
  { invoice_ref := refv
    name := it.name.getD ""
    quantity := jsOrQ it.quantity 1
    unit_price := jsOrQ it.unit_price 0
    discount := jsOrQ it.discount 0
    total := jsOrQ it.quantity 1 * jsOrQ it.unit_price 0 - jsOrQ it.discount 0 }

/-- `const lineItems = items.map(...)` (`server.js` lines 275-281). -/
def lineItemsOf (refv : String) (r : InvoiceCreateReq) : List InvoiceItem :=
  (r.items.getD []).map (lineOf refv)

/-- `const subtotal = lineItems.reduce((s, i) => s + i.quantity * i.unit_price, 0)`. -/
def invSubtotal (refv : String) (r : InvoiceCreateReq) : ℚ :=
  ((lineItemsOf refv r).map (fun i => i.quantity * i.unit_price)).sum

/-- `const discount = lineItems.reduce((s, i) => s + i.discount, 0)`. -/
def invDiscountSum (refv : String) (r : InvoiceCreateReq) : ℚ :=
  ((lineItemsOf refv r).map (fun i => i.discount)).sum

/-- The invoice header built by `POST /api/invoices` (`server.js` lines
283-297): `total = subtotal − discount`,
`paid_amount = parseFloat(req.body.paid_amount) || 0`,
`balance = Math.max(0, total − paid_amount)`. -/
def invoiceOf (refv : String) (r : InvoiceCreateReq) : Invoice :=
  { ref := refv
    patient_id := none
    patient_name := jsOrStr r.patient_name ""
    patient_type := jsOrStr r.patient_type ""
    owner_name := ((r.owner_name.getD "").trim)
    phone := jsOrStr r.phone ""
    date := r.date.getD ""
    subtotal := some (invSubtotal refv r)
    discount := some (invDiscountSum refv r)
    total := some (invSubtotal refv r - invDiscountSum refv r)
    paid_amount := some (jsOrQ r.paid_amount 0)
    balance := some (max 0 ((invSubtotal refv r - invDiscountSum refv r) - jsOrQ r.paid_amount 0))
    method := orNull r.method
    status := jsOrStr r.status "Draft"
    notes := orNull r.notes }

/-- `!items?.length`: the request has no usable line-item array. -/
def itemsMissing (o : Option (List ItemReq)) : Bool :=
  match o with
  | none => true
  | some l => l.isEmpty

/-- `POST /api/invoices` (`server.js` lines 258-303).  Validation first;
with a truthy `patient_id` the snapshot lookup passes one bind value to the
two-placeholder `getById` and raises (500, nothing written, no counter
consumed).  Otherwise totals are computed, the ref generated (consuming the
`invoice` counter), and the `createInvoice` transaction inserts the header
and items; an item with an `undefined` name makes `insertItem` reject the
bind value, rolling the transaction back (the counter update, which
happened outside the transaction, survives). -/
def postInvoices (s : Store) (yy mm : String) (r : InvoiceCreateReq) : Response × Store :=
  if isBlank r.owner_name then (errResp "Owner name is required" 400, s)
  else if !strTruthy r.date then (errResp "Date is required" 400, s)
  else if itemsMissing r.items then (errResp "At least one line item is required" 400, s)
  else if strTruthy r.patient_id then (errResp tooFewParams 500, s)
  else
    match generateInvoiceRef s yy mm with
    | none => (errResp "Cannot read properties of undefined" 500, s)
    | some (refv, s1) =>
        if (r.items.getD []).any (fun it => it.name.isNone) then
          (errResp "Invalid value to bind" 500, s1)
        else
          (okResp, { s1 with invoices := s1.invoices ++ [invoiceOf refv r],
                             invoice_items := s1.invoice_items ++ lineItemsOf refv r })

/-- `invoiceQueries.getById.get(ref)` (one placeholder, one bind value). -/
def findInvoice (s : Store) (refv : String) : Option Invoice :=
  s.invoices.find? (fun i => i.ref == refv)

/-- `GET /api/invoices/:ref` (`server.js` lines 248-255). -/
def getInvoice (s : Store) (refv : String) : Response × Option Invoice :=
  match findInvoice s refv with
  | none => (errResp "Invoice not found" 404, none)
  | some i => (okResp, some i)

/-- Request body of `PATCH /api/invoices/:ref/status`: `paid_amount` is
`none` when absent or `null` (the `!= null` guard), and otherwise carries
its `parseFloat` result (`none` = `NaN`). -/
structure InvoicePatchReq where
  status : Option String
  paid_amount : Option (Option ℚ)
deriving DecidableEq, Repr

/-- The `(status, paid_amount, balance)` triple written by
`PATCH /api/invoices/:ref/status` (`server.js` lines 311-317): the
effective status is `req.body.status || inv.status`, the working
`paid_amount`/`balance` are computed with JS number semantics, the `Paid`
and `Draft` branches override them, and `NaN` binds as `NULL`. -/
def patchVals (inv : Invoice) (r : InvoicePatchReq) : String × Option ℚ × Option ℚ :=
  let status := jsOrStr r.status inv.status
  let paid0 : JVal := match r.paid_amount with
                      | some p => ofParse p
                      | none => ofDb inv.paid_amount
  let balance0 : JVal := jsMax0 (jsSub (ofDb inv.total) paid0)
  let paid1 := if status == "Paid" then ofDb inv.total else paid0
  let balance1 := if status == "Paid" then JVal.num 0 else balance0
  let paid2 := if status == "Draft" then JVal.num 0 else paid1
  let balance2 := if status == "Draft" then ofDb inv.total else balance1
  (status, paid2.toDb, balance2.toDb)

/-- `UPDATE invoices SET status=…, paid_amount=…, balance=…` applied to one
row (the written values come from `patchVals`). -/
def patchedRow (inv : Invoice) (r : InvoicePatchReq) (i : Invoice) : Invoice :=
  { i with
    status := (patchVals inv r).1
    paid_amount := (patchVals inv r).2.1
    balance := (patchVals inv r).2.2 }

/-- The per-row effect of the UPDATE's `WHERE ref=@ref` clause. -/
def applyPatch (inv : Invoice) (r : InvoicePatchReq) (refv : String) (i : Invoice) : Invoice :=
  if i.ref == refv then patchedRow inv r i else i

/-- `PATCH /api/invoices/:ref/status` (`server.js` lines 306-323): 404 for
an unknown ref; otherwise the `status`/`paid_amount`/`balance` columns of
the matching rows are set to `patchVals` of the looked-up invoice. -/
def patchInvoiceStatus (s : Store) (refv : String) (r : InvoicePatchReq) : Response × Store :=
  match findInvoice s refv with
  | none => (errResp "Invoice not found" 404, s)
  | some inv =>
      (okResp, { s with invoices := s.invoices.map (applyPatch inv r refv) })

/-- `DELETE /api/invoices/:ref` (`server.js` lines 326-331): no existence
check; the DELETE runs (line items cascade via their foreign key) and the
handler answers 200 `success:true` regardless. -/
def deleteInvoices (s : Store) (refv : String) : Response × Store :=
  (okResp, { s with invoices := s.invoices.filter (fun i => !(i.ref == refv)),
                    invoice_items := s.invoice_items.filter (fun it => !(it.invoice_ref == refv)) })

/-- The state after `n` sequential `POST /api/patients` requests with body
`r`, starting from the freshly initialized store. -/
def iterCreate (r : PatientCreateReq) : ℕ → Store
  | 0 => initStore
  | n + 1 => (postPatients (iterCreate r n) r).2

/-! Support lemmas: decimal digit strings and their injectivity. -/

lemma natDigitsRevAux_congr : ∀ (f1 f2 n : ℕ), n ≤ f1 → n ≤ f2 →
    natDigitsRevAux f1 n = natDigitsRevAux f2 n := by
  intro f1
  induction f1 with
  | zero =>
      intro f2 n h1 _
      have hn : n = 0 := by omega
      subst hn
      cases f2 <;> simp [natDigitsRevAux]
  | succ f ih =>
      intro f2 n h1 h2
      cases f2 with
      | zero =>
          have hn : n = 0 := by omega
          subst hn
          simp [natDigitsRevAux]
      | succ f2 =>
          simp only [natDigitsRevAux]
          by_cases h : n < 10
          · simp [h]
          · have hdiv : n / 10 < n := Nat.div_lt_self (by omega) (by omega)
            simp only [h, if_false]
            exact congrArg (n % 10 :: ·) (ih f2 (n / 10) (by omega) (by omega))

lemma natDigitsRev_eq (n : ℕ) :
    natDigitsRev n = if n < 10 then [n] else n % 10 :: natDigitsRev (n / 10) := by
  unfold natDigitsRev
  cases n with
  | zero => simp [natDigitsRevAux]
  | succ m =>
      simp only [natDigitsRevAux]
      by_cases h : m + 1 < 10
      · simp [h]
      · have hdiv : (m + 1) / 10 < m + 1 := Nat.div_lt_self (by omega) (by omega)
        simp only [h, if_false]
        rw [natDigitsRevAux_congr m ((m + 1) / 10) ((m + 1) / 10) (by omega) (by omega)]

lemma natDigitsRev_ne_nil (n : ℕ) : natDigitsRev n ≠ [] := by
  rw [natDigitsRev_eq]
  split <;> simp

lemma natDigitsRev_lt (n : ℕ) : ∀ d ∈ natDigitsRev n, d < 10 := by
  induction n using Nat.strong_induction_on with
  | _ n ih =>
      rw [natDigitsRev_eq]
      by_cases h : n < 10
      · simp [h]
      · have hdiv : n / 10 < n := Nat.div_lt_self (by omega) (by omega)
        simp only [h, if_false, List.mem_cons]
        rintro d (rfl | hd)
        · exact Nat.mod_lt _ (by omega)
        · exact ih (n / 10) hdiv d hd

lemma natDigitsRev_inj : ∀ (m n : ℕ), natDigitsRev m = natDigitsRev n → m = n := by
  intro m
  induction m using Nat.strong_induction_on with
  | _ m ih =>
      intro n h
      rw [natDigitsRev_eq m, natDigitsRev_eq n] at h
      by_cases hm : m < 10 <;> by_cases hn : n < 10
      · simpa [hm, hn] using h
      · simp only [hm, hn, if_true, if_false, List.cons.injEq] at h
        exact absurd h.2.symm (natDigitsRev_ne_nil _)
      · simp only [hm, hn, if_true, if_false, List.cons.injEq] at h
        exact absurd h.2 (natDigitsRev_ne_nil _)
      · simp only [hm, hn, if_false, List.cons.injEq] at h
        have hdiv : m / 10 < m := Nat.div_lt_self (by omega) (by omega)
        have h1 := h.1
        have h2 := ih (m / 10) hdiv (n / 10) h.2
        have hm10 := Nat.div_add_mod m 10
        have hn10 := Nat.div_add_mod n 10
        omega

lemma digitChar_inj : ∀ a < 10, ∀ b < 10, Nat.digitChar a = Nat.digitChar b → a = b := by
  decide

lemma map_digitChar_inj : ∀ (l1 l2 : List ℕ), (∀ d ∈ l1, d < 10) → (∀ d ∈ l2, d < 10) →
    l1.map Nat.digitChar = l2.map Nat.digitChar → l1 = l2 := by
  intro l1
  induction l1 with
  | nil =>
      intro l2 _ _ h
      cases l2 with
      | nil => rfl
      | cons b l2 => simp at h
  | cons a l ih =>
      intro l2 h1 h2 h
      cases l2 with
      | nil => simp at h
      | cons b l2 =>
          simp only [List.map_cons, List.cons.injEq] at h
          have hab := digitChar_inj a (h1 a (by simp)) b (h2 b (by simp)) h.1
          have hl := ih l2 (fun d hd => h1 d (by simp [hd])) (fun d hd => h2 d (by simp [hd])) h.2
          rw [hab, hl]

lemma natToString_inj : ∀ (m n : ℕ), natToString m = natToString n → m = n := by
  intro m n h
  unfold natToString at h
  rw [String.ext_iff] at h
  simp only at h
  have h2 := List.reverse_injective h
  exact natDigitsRev_inj m n
    (map_digitChar_inj _ _ (natDigitsRev_lt m) (natDigitsRev_lt n) h2)

lemma natToString_data_length (n : ℕ) :
    (natToString n).data.length = (natDigitsRev n).length := by
  simp [natToString]

lemma pow_le_digits_len : ∀ (k n : ℕ), 10 ^ k ≤ n → k + 1 ≤ (natDigitsRev n).length := by
  intro k
  induction k with
  | zero =>
      intro n _
      have := List.length_pos.mpr (natDigitsRev_ne_nil n)
      omega
  | succ k ih =>
      intro n h
      have h1 : (10:ℕ) ≤ 10 ^ (k + 1) := by
        calc (10:ℕ) = 10 ^ 1 := (pow_one 10).symm
        _ ≤ 10 ^ (k + 1) := Nat.pow_le_pow_right (by omega) (by omega)
      have h10 : ¬ n < 10 := by omega
      rw [natDigitsRev_eq]
      simp only [h10, if_false, List.length_cons]
      have hdivle : 10 ^ k ≤ n / 10 := by
        rw [Nat.le_div_iff_mul_le (by omega)]
        calc 10 ^ k * 10 = 10 ^ (k + 1) := (pow_succ 10 k).symm
        _ ≤ n := h
      have := ih (n / 10) hdivle
      omega

lemma padStart_eq_self (s : String) (h : 5 ≤ s.data.length) : padStart 5 '0' s = s := by
  unfold padStart
  have h0 : 5 - s.data.length = 0 := by omega
  rw [h0]
  rfl

lemma pidString_inj : ∀ (m n : ℕ), 10000 ≤ m → 10000 ≤ n →
    pidString m = pidString n → m = n := by
  intro m n hm hn h
  unfold pidString at h
  have lm : 5 ≤ (natToString m).data.length := by
    rw [natToString_data_length]
    exact pow_le_digits_len 4 m (by norm_num; omega)
  have ln : 5 ≤ (natToString n).data.length := by
    rw [natToString_data_length]
    exact pow_le_digits_len 4 n (by norm_num; omega)
  rw [padStart_eq_self _ lm, padStart_eq_self _ ln] at h
  have hd := congrArg String.data h
  rw [String.data_append, String.data_append] at hd
  exact natToString_inj m n (String.ext (List.append_cancel_left hd))

/-! Support lemmas: `find?` through an UPDATE-style `map`, counters, and
frame facts for the invoice-creation path. -/

lemma find?_map_update {α : Type} (p q : α → Bool) (f : α → α) :
    ∀ (l : List α) (x : α), l.find? p = some x →
      (∀ a, q a = true → p a = true) →
      (∀ a, p (f a) = p a) →
      q x = true →
      (l.map (fun a => if q a then f a else a)).find? p = some (f x) := by
  intro l
  induction l with
  | nil => intro x hx; simp at hx
  | cons a l ih =>
      intro x hx hqp hpf hqx
      by_cases hpa : p a = true
      · rw [List.find?_cons_of_pos _ hpa] at hx
        injection hx with hx
        subst hx
        simp only [List.map_cons, hqx, if_true]
        exact List.find?_cons_of_pos _ (by rw [hpf]; exact hpa)
      · rw [List.find?_cons_of_neg _ hpa] at hx
        have hqa : ¬ q a = true := fun h => hpa (hqp a h)
        simp only [List.map_cons, if_neg hqa]
        rw [List.find?_cons_of_neg _ hpa]
        exact ih x hx hqp hpf hqx

lemma map_id_of_no_match {α : Type} (q : α → Bool) (f : α → α) (l : List α)
    (h : ∀ a ∈ l, q a = false) :
    l.map (fun a => if q a then f a else a) = l := by
  induction l with
  | nil => rfl
  | cons a l ih =>
      simp only [List.map_cons]
      rw [if_neg (by simp [h a (by simp)])]
      exact congrArg (a :: ·) (ih (fun b hb => h b (by simp [hb])))

lemma countersGet_inc (cs : List (String × ℕ)) (k : String) (v : ℕ)
    (h : countersGet cs k = some v) :
    countersGet (countersInc cs k) k = some (v + 1) := by
  induction cs with
  | nil => simp [countersGet] at h
  | cons kv cs ih =>
      by_cases hk : (kv.1 == k) = true
      · simp only [countersGet, countersInc, List.map_cons, if_pos hk] at h ⊢
        simp only [List.find?, hk] at h ⊢
        injection h with h
        simp [h]
      · have hk2 : (kv.1 == k) = false := by simpa using hk
        simp only [countersGet, countersInc, List.map_cons, if_neg hk] at h ⊢
        simp only [List.find?, hk2] at h ⊢
        exact ih h

lemma nextCounter_frame (s : Store) (k : String) (v : ℕ) (s1 : Store)
    (h : nextCounter s k = some (v, s1)) :
    s1.patients = s.patients ∧ s1.checkins = s.checkins ∧
    s1.invoices = s.invoices ∧ s1.invoice_items = s.invoice_items ∧
    countersGet s.counters k = some v ∧
    countersGet s1.counters k = some (v + 1) := by
  unfold nextCounter at h
  cases hg : countersGet s.counters k with
  | none => rw [hg] at h; simp at h
  | some w =>
      rw [hg] at h
      simp only [Option.some.injEq, Prod.mk.injEq] at h
      obtain ⟨rfl, rfl⟩ := h
      exact ⟨rfl, rfl, rfl, rfl, rfl, countersGet_inc _ _ _ hg⟩

lemma generateInvoiceRef_frame (s : Store) (yy mm : String) (refv : String) (s1 : Store)
    (h : generateInvoiceRef s yy mm = some (refv, s1)) :
    s1.patients = s.patients ∧ s1.checkins = s.checkins ∧
    s1.invoices = s.invoices ∧ s1.invoice_items = s.invoice_items := by
  unfold generateInvoiceRef at h
  cases hn : nextCounter s "invoice" with
  | none => rw [hn] at h; simp at h
  | some vs =>
      rw [hn] at h
      simp only [Option.some.injEq, Prod.mk.injEq] at h
      obtain ⟨-, rfl⟩ := h
      have := nextCounter_frame s "invoice" vs.1 vs.2 (by rw [hn])
      exact ⟨this.1, this.2.1, this.2.2.1, this.2.2.2.1⟩

/-- Characterization of a successful `POST /api/invoices`: the response is
200 and the new state appends exactly the computed invoice header and line
items to the old state. -/
lemma postInvoices_ok (s : Store) (yy mm : String) (r : InvoiceCreateReq)
    (resp : Response) (s' : Store)
    (h : postInvoices s yy mm r = (resp, s')) (hs : resp.success = true) :
    ∃ refv : String, resp = okResp ∧
      s'.patients = s.patients ∧ s'.checkins = s.checkins ∧
      s'.invoices = s.invoices ++ [invoiceOf refv r] ∧
      s'.invoice_items = s.invoice_items ++ lineItemsOf refv r := by
  unfold postInvoices at h
  repeat' split at h
  any_goals (injection h with h1 h2; rw [← h1] at hs; simp [errResp] at hs)
  injection h with h1 h2
  rename_i refv s1 heq hnm
  obtain ⟨hp, hc, hi, hit⟩ := generateInvoiceRef_frame s yy mm refv s1 heq
  subst h2
  exact ⟨refv, h1.symm, by simp [hp], by simp [hc], by simp [hi], by simp [hit]⟩

lemma toDb_ofDb (o : Option ℚ) : (ofDb o).toDb = o := by
  cases o <;> rfl

lemma toDb_num (q : ℚ) : (JVal.num q).toDb = some q := rfl

lemma patchVals_paid (inv : Invoice) (r : InvoicePatchReq)
    (h : jsOrStr r.status inv.status = "Paid") :
    patchVals inv r = ("Paid", inv.total, some 0) := by
  unfold patchVals
  rw [h]
  simp [toDb_ofDb, toDb_num]

lemma patchVals_draft (inv : Invoice) (r : InvoicePatchReq)
    (h : jsOrStr r.status inv.status = "Draft") :
    patchVals inv r = ("Draft", some 0, inv.total) := by
  unfold patchVals
  rw [h]
  simp [toDb_ofDb, toDb_num]

lemma patchVals_other (inv : Invoice) (r : InvoicePatchReq)
    (h1 : jsOrStr r.status inv.status ≠ "Paid")
    (h2 : jsOrStr r.status inv.status ≠ "Draft") :
    patchVals inv r = (jsOrStr r.status inv.status,
      (match r.paid_amount with
       | some p => ofParse p
       | none => ofDb inv.paid_amount).toDb,
      (jsMax0 (jsSub (ofDb inv.total)
        (match r.paid_amount with
         | some p => ofParse p
         | none => ofDb inv.paid_amount))).toDb) := by
  have hb1 : (jsOrStr r.status inv.status == "Paid") = false := by
    simpa using h1
  have hb2 : (jsOrStr r.status inv.status == "Draft") = false := by
    simpa using h2
  simp only [patchVals, hb1, hb2, Bool.false_eq_true, if_false]

lemma patchInvoiceStatus_found (s : Store) (refv : String) (r : InvoicePatchReq)
    (inv : Invoice) (hf : findInvoice s refv = some inv) :
    patchInvoiceStatus s refv r =
      (okResp, { s with invoices := s.invoices.map (applyPatch inv r refv) }) := by
  unfold patchInvoiceStatus
  rw [hf]

lemma findInvoice_after_patch (s : Store) (refv : String) (r : InvoicePatchReq)
    (inv : Invoice) (hf : findInvoice s refv = some inv) :
    findInvoice (patchInvoiceStatus s refv r).2 refv = some (patchedRow inv r inv) := by
  rw [patchInvoiceStatus_found s refv r inv hf]
  unfold findInvoice at hf ⊢
  have hqx := List.find?_some hf
  exact find?_map_update (fun i => i.ref == refv) (fun i => i.ref == refv)
    (patchedRow inv r) s.invoices inv hf (fun _ h => h) (fun _ => rfl) hqx

lemma putPatients_found (s : Store) (idp : String) (r : PatientUpdateReq)
    (existing : Patient) (hf : patientGetById2 s idp idp = some existing) :
    putPatients s idp r =
      (errResp tooFewParams 500, { s with patients := s.patients.map (applyPut existing r idp) }) := by
  unfold putPatients
  rw [hf]

lemma findPatient_after_put (s : Store) (idp : String) (r : PatientUpdateReq)
    (existing : Patient) (hf : patientGetById2 s idp idp = some existing)
    (hid : existing.id = idp) :
    patientGetById2 (putPatients s idp r).2 idp idp =
      some (mergePatient existing existing r) := by
  rw [putPatients_found s idp r existing hf]
  unfold patientGetById2 at hf ⊢
  exact find?_map_update (patientMatches idp idp) (fun q => q.id == idp)
    (fun q => mergePatient q existing r) s.patients existing hf
    (fun a h => by simp [patientMatches, h]) (fun _ => rfl) (by simp [hid])

lemma postPatients_valid (r : PatientCreateReq) (hn : isBlank r.name = false)
    (ho : isBlank r.owner_name = false) (ps : List Patient) (cs : List Checkin)
    (iv : List Invoice) (ii : List InvoiceItem) (m : ℕ) :
    postPatients ⟨ps, cs, iv, ii, [("invoice", 1), ("patient", m)]⟩ r =
      (errResp tooFewParams 500,
        ⟨ps ++ [patientOf (pidString m) r], cs, iv, ii, [("invoice", 1), ("patient", m + 1)]⟩) := by
  unfold postPatients
  rw [if_neg (by simp [hn]), if_neg (by simp [ho])]
  unfold generatePatientId nextCounter countersGet countersInc
  simp [List.find?]

lemma iterCreate_spec (r : PatientCreateReq) (hn : isBlank r.name = false)
    (ho : isBlank r.owner_name = false) : ∀ n : ℕ, iterCreate r n =
      ⟨(List.range n).map (fun i => patientOf (pidString (10000 + i)) r),
        [], [], [], [("invoice", 1), ("patient", 10000 + n)]⟩ := by
  intro n
  induction n with
  | zero => rfl
  | succ n ih =>
      simp only [iterCreate]
      rw [ih, postPatients_valid r hn ho]
      simp [List.range_succ]
      omega

/-! The claims. -/

/-- Claim C1: for every invoice-creation request accepted by
`POST /api/invoices`, the stored invoice and line items satisfy: each
line's `total = quantity × unit_price − discount`; `subtotal` is the sum of
`quantity × unit_price` over the stored lines; `discount` is the sum of the
line discounts; `total = subtotal − discount`; and
`balance = max(0, total − paid_amount)` with `paid_amount` the parsed paid
amount of the request (`0` when absent or unparseable). -/
theorem invoice_creation_totals (s : Store) (yy mm : String) (r : InvoiceCreateReq)
    (resp : Response) (s' : Store)
    (h : postInvoices s yy mm r = (resp, s')) (hs : resp.success = true) :
    ∃ inv : Invoice, ∃ newItems : List InvoiceItem,
      s'.invoices = s.invoices ++ [inv] ∧
      s'.invoice_items = s.invoice_items ++ newItems ∧
      (∀ it ∈ newItems, it.total = it.quantity * it.unit_price - it.discount) ∧
      inv.subtotal = some ((newItems.map (fun it => it.quantity * it.unit_price)).sum) ∧
      inv.discount = some ((newItems.map (fun it => it.discount)).sum) ∧
      inv.total = some ((newItems.map (fun it => it.quantity * it.unit_price)).sum
        - (newItems.map (fun it => it.discount)).sum) ∧
      inv.paid_amount = some (jsOrQ r.paid_amount 0) ∧
      inv.balance = some (max 0 (((newItems.map (fun it => it.quantity * it.unit_price)).sum
        - (newItems.map (fun it => it.discount)).sum) - jsOrQ r.paid_amount 0)) := by
  obtain ⟨refv, -, -, -, hi, hit⟩ := postInvoices_ok s yy mm r resp s' h hs
  refine ⟨invoiceOf refv r, lineItemsOf refv r, hi, hit, ?_,
    rfl, rfl, rfl, rfl, rfl⟩
  intro it hmem
  simp only [lineItemsOf, List.mem_map] at hmem
  obtain ⟨a, -, rfl⟩ := hmem
  simp [lineOf]

/-- The spec's worked example: two line items with quantities 2 and 1, unit
prices 100 and 50, discounts 10 and 0. -/
def exItems1 : List ItemReq :=
  [⟨some "Consult", some 2, some 100, some 10⟩, ⟨some "Vaccine", some 1, some 50, some 0⟩]

/-- An invoice-creation request over `exItems1` with a given parsed
`paid_amount` and requested status. -/
def exInvReq (paid : Option ℚ) (st : Option String) : InvoiceCreateReq :=
  ⟨none, some "Rex", none, none, some "Alice", some "2024-11-03", some exItems1, paid, none, st, none⟩

theorem invoice_creation_totals_witness :
    (∃ inv : Invoice, ∃ newItems : List InvoiceItem,
      (postInvoices initStore "24" "11" (exInvReq (some 240) none)).2.invoices
          = initStore.invoices ++ [inv] ∧
      (postInvoices initStore "24" "11" (exInvReq (some 240) none)).2.invoice_items
          = initStore.invoice_items ++ newItems ∧
      (∀ it ∈ newItems, it.total = it.quantity * it.unit_price - it.discount) ∧
      inv.subtotal = some ((newItems.map (fun it => it.quantity * it.unit_price)).sum) ∧
      inv.discount = some ((newItems.map (fun it => it.discount)).sum) ∧
      inv.total = some ((newItems.map (fun it => it.quantity * it.unit_price)).sum
        - (newItems.map (fun it => it.discount)).sum) ∧
      inv.paid_amount = some (jsOrQ (exInvReq (some 240) none).paid_amount 0) ∧
      inv.balance = some (max 0 (((newItems.map (fun it => it.quantity * it.unit_price)).sum
        - (newItems.map (fun it => it.discount)).sum)
          - jsOrQ (exInvReq (some 240) none).paid_amount 0))) ∧
    ((postInvoices initStore "24" "11" (exInvReq (some 240) none)).2.invoices.map
        (fun i => (i.subtotal, i.discount, i.total, i.balance))
      = [(some 250, some 10, some 240, some 0)]) ∧
    ((postInvoices initStore "24" "11" (exInvReq (some 0) none)).2.invoices.map
        (fun i => i.balance) = [some 240]) :=
  ⟨invoice_creation_totals initStore "24" "11" (exInvReq (some 240) none)
      (postInvoices initStore "24" "11" (exInvReq (some 240) none)).1
      (postInvoices initStore "24" "11" (exInvReq (some 240) none)).2
      rfl (by with_unfolding_all rfl),
    by with_unfolding_all rfl, by with_unfolding_all rfl⟩

/-- Claim C2 counterexample: creating an invoice with requested status
`"Paid"` and no `paid_amount` stores an invoice whose status is `Paid` but
whose `paid_amount` (0) differs from its `total` (240) and whose balance
(240) is not 0 — the Paid/Draft part of the claimed invariant fails right
after a write. -/
theorem invoice_invariant_counterexample :
    ∃ i ∈ (postInvoices initStore "24" "11" (exInvReq none (some "Paid"))).2.invoices,
      i.status = "Paid" ∧ i.paid_amount ≠ i.total ∧ i.balance ≠ some 0 :=
  of_decide_eq_true (by with_unfolding_all rfl)

/-- Claim C2 (amended): after a successful creation the stored invoice
satisfies the arithmetic invariant `total = subtotal − discount` and
`balance = max(0, total − paid_amount)`, with its status taken from the
request (defaulting to `Draft`) — the Paid/Draft conditions are NOT
enforced at creation.  After a status update the monetary header fields
`subtotal`/`discount`/`total` are unchanged, and the stored row satisfies:
resulting status `Paid` forces `paid_amount = total` and `balance = 0`;
resulting status `Draft` forces `paid_amount = 0` and `balance = total`. -/
theorem invoice_invariant_amended :
    (∀ (s : Store) (yy mm : String) (r : InvoiceCreateReq) (resp : Response) (s' : Store),
      postInvoices s yy mm r = (resp, s') → resp.success = true →
      ∃ inv ∈ s'.invoices, ∃ st d p : ℚ,
        inv.subtotal = some st ∧ inv.discount = some d ∧ inv.total = some (st - d) ∧
        inv.paid_amount = some p ∧ inv.balance = some (max 0 ((st - d) - p)) ∧
        inv.status = jsOrStr r.status "Draft") ∧
    (∀ (s : Store) (refv : String) (r : InvoicePatchReq) (inv : Invoice),
      findInvoice s refv = some inv →
      ∃ upd : Invoice, findInvoice (patchInvoiceStatus s refv r).2 refv = some upd ∧
        upd.subtotal = inv.subtotal ∧ upd.discount = inv.discount ∧ upd.total = inv.total ∧
        (upd.status = "Paid" → upd.paid_amount = inv.total ∧ upd.balance = some 0) ∧
        (upd.status = "Draft" → upd.paid_amount = some 0 ∧ upd.balance = inv.total)) := by
  constructor
  · intro s yy mm r resp s' h hs
    obtain ⟨refv, -, -, -, hi, -⟩ := postInvoices_ok s yy mm r resp s' h hs
    have hmem : invoiceOf refv r ∈ s'.invoices := by
      rw [hi]
      exact List.mem_append_right _ (by simp)
    exact ⟨invoiceOf refv r, hmem, invSubtotal refv r, invDiscountSum refv r,
      jsOrQ r.paid_amount 0, rfl, rfl, rfl, rfl, rfl, rfl⟩
  · intro s refv r inv hf
    refine ⟨patchedRow inv r inv, findInvoice_after_patch s refv r inv hf,
      rfl, rfl, rfl, ?_, ?_⟩
    · intro hst
      have h2 : jsOrStr r.status inv.status = "Paid" := hst
      constructor
      · show (patchVals inv r).2.1 = inv.total
        rw [patchVals_paid inv r h2]
      · show (patchVals inv r).2.2 = some 0
        rw [patchVals_paid inv r h2]
    · intro hst
      have h2 : jsOrStr r.status inv.status = "Draft" := hst
      constructor
      · show (patchVals inv r).2.1 = some 0
        rw [patchVals_draft inv r h2]
      · show (patchVals inv r).2.2 = inv.total
        rw [patchVals_draft inv r h2]

/-- The store holding the single invoice created from `exInvReq (some 240)
none` (ref `IN:01-2411-0001`). -/
def exStore2 : Store := (postInvoices initStore "24" "11" (exInvReq (some 240) none)).2

/-- A throwaway invoice record used as a `getD` default. -/
def dummyInvoice : Invoice :=
  ⟨"", none, "", "", "", "", "", none, none, none, none, none, none, "", none⟩

/-- The invoice stored in `exStore2`. -/
def exInv0 : Invoice := (findInvoice exStore2 "IN:01-2411-0001").getD dummyInvoice

theorem invoice_invariant_amended_witness :
    (∃ inv ∈ (postInvoices initStore "24" "11" (exInvReq (some 240) none)).2.invoices,
      ∃ st d p : ℚ,
        inv.subtotal = some st ∧ inv.discount = some d ∧ inv.total = some (st - d) ∧
        inv.paid_amount = some p ∧ inv.balance = some (max 0 ((st - d) - p)) ∧
        inv.status = jsOrStr (exInvReq (some 240) none).status "Draft") ∧
    (∃ upd : Invoice,
      findInvoice (patchInvoiceStatus exStore2 "IN:01-2411-0001" ⟨some "Paid", none⟩).2
          "IN:01-2411-0001" = some upd ∧
        upd.subtotal = exInv0.subtotal ∧ upd.discount = exInv0.discount ∧
        upd.total = exInv0.total ∧
        (upd.status = "Paid" → upd.paid_amount = exInv0.total ∧ upd.balance = some 0) ∧
        (upd.status = "Draft" → upd.paid_amount = some 0 ∧ upd.balance = exInv0.total)) :=
  ⟨invoice_invariant_amended.1 initStore "24" "11" (exInvReq (some 240) none)
      (postInvoices initStore "24" "11" (exInvReq (some 240) none)).1
      (postInvoices initStore "24" "11" (exInvReq (some 240) none)).2
      rfl (by with_unfolding_all rfl),
    invoice_invariant_amended.2 exStore2 "IN:01-2411-0001" ⟨some "Paid", none⟩ exInv0
      (by with_unfolding_all rfl)⟩

/-- Claim C3: for an existing invoice, `PATCH /api/invoices/:ref/status`
with requested status `Paid` stores `paid_amount = total` and `balance = 0`
regardless of any supplied or stored paid amount; requested status `Draft`
stores `paid_amount = 0` and `balance = total`; any other (non-empty)
requested status stores `balance = max(0, total − paid_amount)` against the
already-stored total, with `paid_amount` the request's parsed value when
present and the stored value otherwise. -/
theorem invoice_status_patch_spec (s : Store) (refv : String) (r : InvoicePatchReq)
    (inv : Invoice) (hf : findInvoice s refv = some inv) :
    (patchInvoiceStatus s refv r).1 = okResp ∧
    ∃ upd : Invoice, findInvoice (patchInvoiceStatus s refv r).2 refv = some upd ∧
      (r.status = some "Paid" →
        upd.status = "Paid" ∧ upd.paid_amount = inv.total ∧ upd.balance = some 0) ∧
      (r.status = some "Draft" →
        upd.status = "Draft" ∧ upd.paid_amount = some 0 ∧ upd.balance = inv.total) ∧
      (∀ (st : String) (p t : ℚ), r.status = some st →
        st ≠ "Paid" → st ≠ "Draft" → st ≠ "" →
        (match r.paid_amount with
         | some pp => pp
         | none => inv.paid_amount) = some p →
        inv.total = some t →
        upd.status = st ∧ upd.paid_amount = some p ∧
          upd.balance = some (max 0 (t - p))) := by
  constructor
  · rw [patchInvoiceStatus_found s refv r inv hf]
  refine ⟨patchedRow inv r inv, findInvoice_after_patch s refv r inv hf, ?_, ?_, ?_⟩
  · intro hst
    have h2 : jsOrStr r.status inv.status = "Paid" := by rw [hst]; rfl
    refine ⟨?_, ?_, ?_⟩
    · show (patchVals inv r).1 = "Paid"
      rw [patchVals_paid inv r h2]
    · show (patchVals inv r).2.1 = inv.total
      rw [patchVals_paid inv r h2]
    · show (patchVals inv r).2.2 = some 0
      rw [patchVals_paid inv r h2]
  · intro hst
    have h2 : jsOrStr r.status inv.status = "Draft" := by rw [hst]; rfl
    refine ⟨?_, ?_, ?_⟩
    · show (patchVals inv r).1 = "Draft"
      rw [patchVals_draft inv r h2]
    · show (patchVals inv r).2.1 = some 0
      rw [patchVals_draft inv r h2]
    · show (patchVals inv r).2.2 = inv.total
      rw [patchVals_draft inv r h2]
  · intro st p t hst hne1 hne2 hne3 hpaid ht
    have h2 : jsOrStr r.status inv.status = st := by
      rw [hst]
      simp [jsOrStr, hne3]
    have hv := patchVals_other inv r (by rw [h2]; exact hne1) (by rw [h2]; exact hne2)
    have hpd : (match r.paid_amount with
                | some pp => ofParse pp
                | none => ofDb inv.paid_amount) = JVal.num p := by
      cases hrp : r.paid_amount with
      | some pp =>
          rw [hrp] at hpaid
          have h3 : pp = some p := hpaid
          show ofParse pp = JVal.num p
          rw [h3]
          rfl
      | none =>
          rw [hrp] at hpaid
          have h3 : inv.paid_amount = some p := hpaid
          show ofDb inv.paid_amount = JVal.num p
          rw [h3]
          rfl
    refine ⟨?_, ?_, ?_⟩
    · show (patchVals inv r).1 = st
      rw [hv, h2]
    · show (patchVals inv r).2.1 = some p
      rw [hv]
      show (match r.paid_amount with
            | some pp => ofParse pp
            | none => ofDb inv.paid_amount).toDb = some p
      rw [hpd]
      rfl
    · show (patchVals inv r).2.2 = some (max 0 (t - p))
      rw [hv]
      show (jsMax0 (jsSub (ofDb inv.total)
            (match r.paid_amount with
             | some pp => ofParse pp
             | none => ofDb inv.paid_amount))).toDb = some (max 0 (t - p))
      rw [hpd, ht]
      rfl

theorem invoice_status_patch_spec_witness :
    (∃ upd : Invoice,
      findInvoice (patchInvoiceStatus exStore2 "IN:01-2411-0001" ⟨some "Paid", some (some 50)⟩).2
          "IN:01-2411-0001" = some upd ∧
        upd.status = "Paid" ∧ upd.paid_amount = exInv0.total ∧ upd.balance = some 0) ∧
    (∃ upd : Invoice,
      findInvoice (patchInvoiceStatus exStore2 "IN:01-2411-0001" ⟨some "Draft", some (some 50)⟩).2
          "IN:01-2411-0001" = some upd ∧
        upd.status = "Draft" ∧ upd.paid_amount = some 0 ∧ upd.balance = exInv0.total) ∧
    (∃ upd : Invoice,
      findInvoice (patchInvoiceStatus exStore2 "IN:01-2411-0001"
          ⟨some "Outstanding", some (some 50)⟩).2 "IN:01-2411-0001" = some upd ∧
        upd.status = "Outstanding" ∧ upd.paid_amount = some 50 ∧
        upd.balance = some (max 0 (240 - 50))) := by
  refine ⟨?_, ?_, ?_⟩
  · obtain ⟨-, upd, hfind, hp, -, -⟩ :=
      invoice_status_patch_spec exStore2 "IN:01-2411-0001" ⟨some "Paid", some (some 50)⟩ exInv0
        (by with_unfolding_all rfl)
    obtain ⟨h1, h2, h3⟩ := hp rfl
    exact ⟨upd, hfind, h1, h2, h3⟩
  · obtain ⟨-, upd, hfind, -, hd, -⟩ :=
      invoice_status_patch_spec exStore2 "IN:01-2411-0001" ⟨some "Draft", some (some 50)⟩ exInv0
        (by with_unfolding_all rfl)
    obtain ⟨h1, h2, h3⟩ := hd rfl
    exact ⟨upd, hfind, h1, h2, h3⟩
  · obtain ⟨-, upd, hfind, -, -, ho⟩ :=
      invoice_status_patch_spec exStore2 "IN:01-2411-0001"
        ⟨some "Outstanding", some (some 50)⟩ exInv0 (by with_unfolding_all rfl)
    obtain ⟨h1, h2, h3⟩ := ho "Outstanding" 50 240 rfl (by decide) (by decide) (by decide)
      rfl (by with_unfolding_all rfl)
    exact ⟨upd, hfind, h1, h2, h3⟩

lemma filter_all_true {α : Type} (p : α → Bool) :
    ∀ (l : List α), (∀ a ∈ l, p a = true) → l.filter p = l := by
  intro l
  induction l with
  | nil => intro _; rfl
  | cons a l ih =>
      intro h
      simp only [List.filter, h a (by simp)]
      rw [ih (fun b hb => h b (by simp [hb]))]

/-- Claim C4 counterexample: `DELETE /api/checkins/:id` on an id that
matches no stored record answers 200 `{success: true}`, not a 404 error. -/
theorem notfound_counterexample :
    (deleteCheckins initStore "CI-missing").1.success = true ∧
    (deleteCheckins initStore "CI-missing").1.status ≠ 404 :=
  ⟨rfl, by decide⟩

/-- Claim C4 (amended): for an id/ref matching no stored record, the GET
handlers of all three entities, patient PUT, and invoice status PATCH
answer 404 `{success: false}`; patient DELETE answers 500 `{success:
false}` (its lookup always raises a bind-arity error, for known and
unknown ids alike); check-in status PATCH (with a valid status), check-in
DELETE, and invoice DELETE answer 200 `{success: true}` even though no
record matches, leaving the store unchanged. -/
theorem notfound_amended :
    (∀ (s : Store) (idp : String), patientGetById2 s idp idp = none →
      getPatient s idp = (errResp "Patient not found" 404, none)) ∧
    (∀ (s : Store) (idp : String) (r : PatientUpdateReq), patientGetById2 s idp idp = none →
      putPatients s idp r = (errResp "Patient not found" 404, s)) ∧
    (∀ (s : Store) (idp : String),
      deletePatients s idp = (errResp tooFewParams 500, s)) ∧
    (∀ (s : Store) (cid : String), s.checkins.find? (fun c => c.id == cid) = none →
      getCheckin s cid = (errResp "Check-in not found" 404, none)) ∧
    (∀ (s : Store) (cid : String) (st : Option String),
      (st = some "open" ∨ st = some "done") →
      (∀ c ∈ s.checkins, ¬ c.id = cid) →
      patchCheckinStatus s cid st = (okResp, s)) ∧
    (∀ (s : Store) (cid : String), (∀ c ∈ s.checkins, ¬ c.id = cid) →
      deleteCheckins s cid = (okResp, s)) ∧
    (∀ (s : Store) (refv : String), findInvoice s refv = none →
      getInvoice s refv = (errResp "Invoice not found" 404, none)) ∧
    (∀ (s : Store) (refv : String) (r : InvoicePatchReq), findInvoice s refv = none →
      patchInvoiceStatus s refv r = (errResp "Invoice not found" 404, s)) ∧
    (∀ (s : Store) (refv : String),
      (∀ i ∈ s.invoices, ¬ i.ref = refv) →
      (∀ it ∈ s.invoice_items, ¬ it.invoice_ref = refv) →
      deleteInvoices s refv = (okResp, s)) := by
  refine ⟨?_, ?_, ?_, ?_, ?_, ?_, ?_, ?_, ?_⟩
  · intro s idp h
    unfold getPatient
    rw [h]
  · intro s idp r h
    unfold putPatients
    rw [h]
  · intro s idp
    rfl
  · intro s cid h
    unfold getCheckin
    rw [h]
  · intro s cid st hst hc
    obtain rfl | rfl := hst
    all_goals
      unfold patchCheckinStatus
      rw [if_neg (by decide)]
      rw [map_id_of_no_match _ _ _ (fun c hmem => by simp [hc c hmem])]
  · intro s cid hc
    unfold deleteCheckins
    rw [filter_all_true _ _ (fun c hmem => by simp [hc c hmem])]
  · intro s refv h
    unfold getInvoice
    rw [h]
  · intro s refv r h
    unfold patchInvoiceStatus
    rw [h]
  · intro s refv hi hit
    unfold deleteInvoices
    rw [filter_all_true _ _ (fun i hmem => by simp [hi i hmem]),
        filter_all_true _ _ (fun it hmem => by simp [hit it hmem])]

theorem notfound_amended_witness :
    getPatient initStore "PaCPC-99999" = (errResp "Patient not found" 404, none) ∧
    putPatients initStore "PaCPC-99999"
        ⟨none, none, none, none, none, none, none, none, none, none, none⟩ =
      (errResp "Patient not found" 404, initStore) ∧
    deletePatients initStore "PaCPC-99999" = (errResp tooFewParams 500, initStore) ∧
    getCheckin initStore "CI-missing" = (errResp "Check-in not found" 404, none) ∧
    patchCheckinStatus initStore "CI-missing" (some "open") = (okResp, initStore) ∧
    deleteCheckins initStore "CI-missing" = (okResp, initStore) ∧
    getInvoice initStore "IN:01-0000-0000" = (errResp "Invoice not found" 404, none) ∧
    patchInvoiceStatus initStore "IN:01-0000-0000" ⟨some "Paid", none⟩ =
      (errResp "Invoice not found" 404, initStore) ∧
    deleteInvoices initStore "IN:01-0000-0000" = (okResp, initStore) :=
  ⟨notfound_amended.1 initStore "PaCPC-99999" rfl,
   notfound_amended.2.1 initStore "PaCPC-99999" _ rfl,
   notfound_amended.2.2.1 initStore "PaCPC-99999",
   notfound_amended.2.2.2.1 initStore "CI-missing" rfl,
   notfound_amended.2.2.2.2.1 initStore "CI-missing" (some "open") (Or.inl rfl)
     (by simp [initStore]),
   notfound_amended.2.2.2.2.2.1 initStore "CI-missing" (by simp [initStore]),
   notfound_amended.2.2.2.2.2.2.1 initStore "IN:01-0000-0000" rfl,
   notfound_amended.2.2.2.2.2.2.2.1 initStore "IN:01-0000-0000" _ rfl,
   notfound_amended.2.2.2.2.2.2.2.2 initStore "IN:01-0000-0000" (by simp [initStore])
     (by simp [initStore])⟩

/-- Claim C5: each create handler rejects a missing/blank required field
with a 400 `{success: false}` response and leaves the store completely
unchanged — no row is inserted and no counter value is consumed (the
returned store is the input store itself, counters included). -/
theorem create_validation_spec :
    (∀ (s : Store) (r : PatientCreateReq),
      (isBlank r.name = true ∨ isBlank r.owner_name = true) →
      (postPatients s r).1.status = 400 ∧ (postPatients s r).1.success = false ∧
        (postPatients s r).2 = s) ∧
    (∀ (s : Store) (cid : String) (r : CheckinCreateReq),
      (isBlank r.doctor = true ∨ r.date = none) →
      (postCheckins s cid r).1.status = 400 ∧ (postCheckins s cid r).1.success = false ∧
        (postCheckins s cid r).2 = s) ∧
    (∀ (s : Store) (yy mm : String) (r : InvoiceCreateReq),
      (isBlank r.owner_name = true ∨ r.date = none ∨ r.items = none ∨ r.items = some []) →
      (postInvoices s yy mm r).1.status = 400 ∧ (postInvoices s yy mm r).1.success = false ∧
        (postInvoices s yy mm r).2 = s) := by
  refine ⟨?_, ?_, ?_⟩
  · intro s r h
    unfold postPatients
    by_cases h1 : isBlank r.name = true
    · rw [if_pos h1]
      exact ⟨rfl, rfl, rfl⟩
    · rw [if_neg h1]
      have h2 : isBlank r.owner_name = true := by
        rcases h with h | h
        · exact absurd h h1
        · exact h
      rw [if_pos h2]
      exact ⟨rfl, rfl, rfl⟩
  · intro s cid r h
    unfold postCheckins
    by_cases h1 : isBlank r.doctor = true
    · rw [if_pos h1]
      exact ⟨rfl, rfl, rfl⟩
    · rw [if_neg h1]
      have h2 : r.date = none := by
        rcases h with h | h
        · exact absurd h h1
        · exact h
      rw [h2]
      rw [if_pos (by decide)]
      exact ⟨rfl, rfl, rfl⟩
  · intro s yy mm r h
    unfold postInvoices
    by_cases h1 : isBlank r.owner_name = true
    · rw [if_pos h1]
      exact ⟨rfl, rfl, rfl⟩
    · rw [if_neg h1]
      by_cases h2 : r.date = none
      · rw [h2]
        rw [if_pos (by decide)]
        exact ⟨rfl, rfl, rfl⟩
      · have h3 : itemsMissing r.items = true := by
          rcases h with h | h | h | h
          · exact absurd h h1
          · exact absurd h h2
          · rw [h]
            rfl
          · rw [h]
            rfl
        by_cases h4 : (!strTruthy r.date) = true
        · rw [if_pos h4]
          exact ⟨rfl, rfl, rfl⟩
        · rw [if_neg h4, if_pos h3]
          exact ⟨rfl, rfl, rfl⟩

theorem create_validation_spec_witness :
    ((postPatients initStore
        ⟨some "  ", none, none, none, none, none, none, some "Alice", none, none, none⟩).1.status
          = 400 ∧
      (postPatients initStore
        ⟨some "  ", none, none, none, none, none, none, some "Alice", none, none, none⟩).1.success
          = false ∧
      (postPatients initStore
        ⟨some "  ", none, none, none, none, none, none, some "Alice", none, none, none⟩).2
          = initStore) ∧
    ((postCheckins initStore "CI-1"
        ⟨none, none, none, some "Dr. Smith", none, none, none, none, none, none, none, none, none⟩).1.status
          = 400 ∧
      (postCheckins initStore "CI-1"
        ⟨none, none, none, some "Dr. Smith", none, none, none, none, none, none, none, none, none⟩).1.success
          = false ∧
      (postCheckins initStore "CI-1"
        ⟨none, none, none, some "Dr. Smith", none, none, none, none, none, none, none, none, none⟩).2
          = initStore) ∧
    ((postInvoices initStore "24" "11"
        ⟨none, none, none, none, some "Alice", some "2024-11-03", some [], none, none, none, none⟩).1.status
          = 400 ∧
      (postInvoices initStore "24" "11"
        ⟨none, none, none, none, some "Alice", some "2024-11-03", some [], none, none, none, none⟩).1.success
          = false ∧
      (postInvoices initStore "24" "11"
        ⟨none, none, none, none, some "Alice", some "2024-11-03", some [], none, none, none, none⟩).2
          = initStore) :=
  ⟨create_validation_spec.1 initStore
      ⟨some "  ", none, none, none, none, none, none, some "Alice", none, none, none⟩
      (Or.inl (by with_unfolding_all rfl)),
   create_validation_spec.2.1 initStore "CI-1"
      ⟨none, none, none, some "Dr. Smith", none, none, none, none, none, none, none, none, none⟩
      (Or.inr rfl),
   create_validation_spec.2.2 initStore "24" "11"
      ⟨none, none, none, none, some "Alice", some "2024-11-03", some [], none, none, none, none⟩
      (Or.inr (Or.inr (Or.inr rfl)))⟩

/-- Claim C6: `nextCounter(key)` on a pre-seeded key returns the stored
value and increments the stored value by exactly one; starting from the
freshly seeded store (patient counter 10000), `n` sequential patient
creations store patients whose ids are, in creation order, exactly
`pidString 10000, pidString 10001, …` (the fixed prefix `PaCPC-` plus the
counter value zero-padded to 5 digits), these ids are pairwise distinct,
and the counter ends at `10000 + n`. -/
theorem counter_and_patient_ids :
    (∀ (s : Store) (k : String) (v : ℕ), countersGet s.counters k = some v →
      ∃ s' : Store, nextCounter s k = some (v, s') ∧
        countersGet s'.counters k = some (v + 1)) ∧
    (∀ (r : PatientCreateReq), isBlank r.name = false → isBlank r.owner_name = false →
      ∀ n : ℕ,
        ((iterCreate r n).patients.map (fun p => p.id)) =
          (List.range n).map (fun i => pidString (10000 + i)) ∧
        ((iterCreate r n).patients.map (fun p => p.id)).Nodup ∧
        countersGet (iterCreate r n).counters "patient" = some (10000 + n)) := by
  constructor
  · intro s k v h
    refine ⟨{ s with counters := countersInc s.counters k }, ?_, ?_⟩
    · unfold nextCounter
      rw [h]
    · exact countersGet_inc s.counters k v h
  · intro r hn ho n
    rw [iterCreate_spec r hn ho n]
    have hmap : ((List.range n).map (fun i => patientOf (pidString (10000 + i)) r)).map
        (fun p => p.id) = (List.range n).map (fun i => pidString (10000 + i)) := by
      rw [List.map_map]
      rfl
    refine ⟨hmap, ?_, ?_⟩
    · rw [hmap]
      refine List.Nodup.map_on ?_ (List.nodup_range n)
      intro i hi j hj hij
      have := pidString_inj (10000 + i) (10000 + j) (by omega) (by omega) hij
      omega
    · rfl

/-- A valid patient-creation request used for concrete runs. -/
def exPatReq : PatientCreateReq :=
  ⟨some "Rex", none, none, none, none, none, none, some "Alice", none, none, none⟩

theorem counter_and_patient_ids_witness :
    (∃ s' : Store, nextCounter initStore "patient" = some (10000, s') ∧
      countersGet s'.counters "patient" = some 10001) ∧
    ((iterCreate exPatReq 3).patients.map (fun p => p.id)) =
      (List.range 3).map (fun i => pidString (10000 + i)) ∧
    ((iterCreate exPatReq 3).patients.map (fun p => p.id)).Nodup ∧
    countersGet (iterCreate exPatReq 3).counters "patient" = some 10003 ∧
    ((iterCreate exPatReq 3).patients.map (fun p => p.id)) =
      ["PaCPC-10000", "PaCPC-10001", "PaCPC-10002"] :=
  ⟨counter_and_patient_ids.1 initStore "patient" 10000 rfl,
   (counter_and_patient_ids.2 exPatReq (by with_unfolding_all rfl)
      (by with_unfolding_all rfl) 3).1,
   (counter_and_patient_ids.2 exPatReq (by with_unfolding_all rfl)
      (by with_unfolding_all rfl) 3).2.1,
   (counter_and_patient_ids.2 exPatReq (by with_unfolding_all rfl)
      (by with_unfolding_all rfl) 3).2.2,
   by with_unfolding_all rfl⟩

/-- Claim C7 (code defect): `DELETE /api/patients/:id` never deletes
anything.  Its first statement passes one bind value to the
two-placeholder `patientQueries.getById`, which raises, so for every store
and every id the handler answers 500 `{success: false}` with the
bind-arity message and the store — patients, check-ins and invoices — is
completely unchanged; the schema's `ON DELETE CASCADE` / `ON DELETE SET
NULL` actions are never reached. -/
theorem delete_patient_always_500 (s : Store) (idp : String) :
    deletePatients s idp = (errResp tooFewParams 500, s) ∧
    (deletePatients s idp).1.success = false ∧
    (deletePatients s idp).2.patients = s.patients ∧
    (deletePatients s idp).2.checkins = s.checkins ∧
    (deletePatients s idp).2.invoices = s.invoices :=
  ⟨rfl, rfl, rfl, rfl, rfl⟩

/-- Claim C8 (code defect): a check-in or invoice creation request whose
`patient_id` is truthy never reaches the snapshot copy — the lookup
`patientQueries.getById.get(patient_id)` passes one bind value to a
two-placeholder statement and raises, so the handler answers 500 and
inserts nothing, whether or not the patient exists. -/
theorem snapshot_lookup_raises :
    (∀ (s : Store) (cid : String) (r : CheckinCreateReq),
      isBlank r.doctor = false → strTruthy r.date = true →
      strTruthy r.patient_id = true →
      postCheckins s cid r = (errResp tooFewParams 500, s)) ∧
    (∀ (s : Store) (yy mm : String) (r : InvoiceCreateReq),
      isBlank r.owner_name = false → strTruthy r.date = true →
      itemsMissing r.items = false → strTruthy r.patient_id = true →
      postInvoices s yy mm r = (errResp tooFewParams 500, s)) := by
  constructor
  · intro s cid r h1 h2 h3
    unfold postCheckins
    rw [if_neg (by simp [h1]), if_neg (by simp [h2]), if_pos h3]
  · intro s yy mm r h1 h2 h3 h4
    unfold postInvoices
    rw [if_neg (by simp [h1]), if_neg (by simp [h2]), if_neg (by simp [h3]), if_pos h4]

theorem snapshot_lookup_raises_witness :
    postCheckins (postPatients initStore exPatReq).2 "CI-1"
        ⟨some "PaCPC-10000", none, none, some "Dr. Smith", some "2024-11-03",
         none, none, none, none, none, none, none, none⟩ =
      (errResp tooFewParams 500, (postPatients initStore exPatReq).2) ∧
    postInvoices (postPatients initStore exPatReq).2 "24" "11"
        ⟨some "PaCPC-10000", none, none, none, some "Alice", some "2024-11-03",
         some exItems1, none, none, none, none⟩ =
      (errResp tooFewParams 500, (postPatients initStore exPatReq).2) :=
  ⟨snapshot_lookup_raises.1 (postPatients initStore exPatReq).2 "CI-1"
      ⟨some "PaCPC-10000", none, none, some "Dr. Smith", some "2024-11-03",
       none, none, none, none, none, none, none, none⟩
      (by with_unfolding_all rfl) (by with_unfolding_all rfl) (by with_unfolding_all rfl),
   snapshot_lookup_raises.2 (postPatients initStore exPatReq).2 "24" "11"
      ⟨some "PaCPC-10000", none, none, none, some "Alice", some "2024-11-03",
       some exItems1, none, none, none, none⟩
      (by with_unfolding_all rfl) (by with_unfolding_all rfl)
      (by with_unfolding_all rfl) (by with_unfolding_all rfl)⟩

/-- Claim C9: for an existing patient (found by its id), `PUT
/api/patients/:id` with a partial body changes only the supplied fields:
every field absent from the request keeps its stored value, rows with
other ids survive untouched, and a subsequent `GET /api/patients/:id`
returns the updated row. -/
theorem patient_partial_update_frame (s : Store) (idp : String) (r : PatientUpdateReq)
    (p : Patient) (hf : patientGetById2 s idp idp = some p) (hid : p.id = idp) :
    ∃ p' : Patient,
      patientGetById2 (putPatients s idp r).2 idp idp = some p' ∧
      getPatient (putPatients s idp r).2 idp = (okResp, some p') ∧
      p'.id = p.id ∧
      (r.name = none → p'.name = p.name) ∧
      (r.type = none → p'.type = p.type) ∧
      (r.breed = none → p'.breed = p.breed) ∧
      (r.colour = none → p'.colour = p.colour) ∧
      (r.age = none → p'.age = p.age) ∧
      (r.gender = none → p'.gender = p.gender) ∧
      (r.weight = none → p'.weight = p.weight) ∧
      (r.owner_name = none → p'.owner_name = p.owner_name) ∧
      (r.phone = none → p'.phone = p.phone) ∧
      (r.email = none → p'.email = p.email) ∧
      (r.address = none → p'.address = p.address) ∧
      (∀ q ∈ s.patients, ¬ q.id = idp → q ∈ (putPatients s idp r).2.patients) := by
  have hfind := findPatient_after_put s idp r p hf hid
  refine ⟨mergePatient p p r, hfind, ?_, rfl, ?_, ?_, ?_, ?_, ?_, ?_, ?_, ?_, ?_, ?_, ?_, ?_⟩
  · unfold getPatient
    rw [hfind]
  · intro h
    show jsOrStr r.name p.name = p.name
    rw [h]
    rfl
  · intro h
    show (match r.type with | none => p.type | some v => some v) = p.type
    rw [h]
  · intro h
    show (match r.breed with | none => p.breed | some v => some v) = p.breed
    rw [h]
  · intro h
    show (match r.colour with | none => p.colour | some v => some v) = p.colour
    rw [h]
  · intro h
    show (match r.age with | none => p.age | some v => some v) = p.age
    rw [h]
  · intro h
    show (match r.gender with | none => p.gender | some v => some v) = p.gender
    rw [h]
  · intro h
    show (match r.weight with | none => p.weight | some w => w.parsed) = p.weight
    rw [h]
  · intro h
    show jsOrStr r.owner_name p.owner_name = p.owner_name
    rw [h]
    rfl
  · intro h
    show (match r.phone with | none => p.phone | some v => some v) = p.phone
    rw [h]
  · intro h
    show (match r.email with | none => p.email | some v => some v) = p.email
    rw [h]
  · intro h
    show (match r.address with | none => p.address | some v => some v) = p.address
    rw [h]
  · intro q hq hqid
    rw [putPatients_found s idp r p hf]
    exact List.mem_map.mpr ⟨q, hq, by simp [applyPut, hqid]⟩

/-- A partial update that only sets `breed`. -/
def exUpdReq : PatientUpdateReq :=
  ⟨none, none, some "Husky", none, none, none, none, none, none, none, none⟩

theorem patient_partial_update_frame_witness :
    ∃ p' : Patient,
      patientGetById2 (putPatients (postPatients initStore exPatReq).2 "PaCPC-10000" exUpdReq).2
          "PaCPC-10000" "PaCPC-10000" = some p' ∧
      getPatient (putPatients (postPatients initStore exPatReq).2 "PaCPC-10000" exUpdReq).2
          "PaCPC-10000" = (okResp, some p') ∧
      p'.name = "Rex" ∧ p'.owner_name = "Alice" ∧ p'.phone = none := by
  obtain ⟨p', h1, h2, -, hname, -, -, -, -, -, -, howner, hphone, -, -, -⟩ :=
    patient_partial_update_frame (postPatients initStore exPatReq).2 "PaCPC-10000" exUpdReq
      (patientOf (pidString 10000) exPatReq)
      (by with_unfolding_all rfl) (by with_unfolding_all rfl)
  refine ⟨p', h1, h2, ?_, ?_, ?_⟩
  · rw [hname rfl]
    with_unfolding_all rfl
  · rw [howner rfl]
    with_unfolding_all rfl
  · rw [hphone rfl]
    with_unfolding_all rfl

lemma jsOrQ_some_zero (d : ℚ) : jsOrQ (some 0) d = d := by
  simp [jsOrQ]

/-- Claim C10: in `POST /api/invoices` the `|| fallback` applies to the
parsed value, not only to parse failures: a line item whose quantity
parses to `0` is stored with quantity `1` and its line total computed as
`1 × unit_price − discount`, while `unit_price` and `discount` values of
`0` are preserved as `0`, and an unparseable `paid_amount` is stored as
`0`. -/
theorem invoice_parse_fallback (s : Store) (yy mm : String) (r : InvoiceCreateReq)
    (resp : Response) (s' : Store)
    (h : postInvoices s yy mm r = (resp, s')) (hs : resp.success = true) :
    ∃ refv : String,
      s'.invoice_items = s.invoice_items ++ lineItemsOf refv r ∧
      (∀ it : ItemReq, it.quantity = some 0 →
        (lineOf refv it).quantity = 1 ∧
        (lineOf refv it).total = 1 * jsOrQ it.unit_price 0 - jsOrQ it.discount 0) ∧
      (∀ it : ItemReq, it.unit_price = some 0 → (lineOf refv it).unit_price = 0) ∧
      (∀ it : ItemReq, it.discount = some 0 → (lineOf refv it).discount = 0) ∧
      (r.paid_amount = none →
        ∃ inv : Invoice, s'.invoices = s.invoices ++ [inv] ∧ inv.paid_amount = some 0) := by
  obtain ⟨refv, -, -, -, hi, hit⟩ := postInvoices_ok s yy mm r resp s' h hs
  refine ⟨refv, hit, ?_, ?_, ?_, ?_⟩
  · intro it hq
    constructor
    · show jsOrQ it.quantity 1 = 1
      rw [hq, jsOrQ_some_zero]
    · show jsOrQ it.quantity 1 * jsOrQ it.unit_price 0 - jsOrQ it.discount 0
        = 1 * jsOrQ it.unit_price 0 - jsOrQ it.discount 0
      rw [hq, jsOrQ_some_zero]
  · intro it hp
    show jsOrQ it.unit_price 0 = 0
    rw [hp, jsOrQ_some_zero]
  · intro it hd
    show jsOrQ it.discount 0 = 0
    rw [hd, jsOrQ_some_zero]
  · intro hpd
    refine ⟨invoiceOf refv r, hi, ?_⟩
    show some (jsOrQ r.paid_amount 0) = some 0
    rw [hpd]
    rfl

/-- A single line item whose quantity, unit price and discount all parse
to `0`, with an unparseable `paid_amount`. -/
def exInvReq0 : InvoiceCreateReq :=
  ⟨none, none, none, none, some "Alice", some "2024-11-03",
   some [⟨some "Zero", some 0, some 0, some 0⟩], none, none, none, none⟩

theorem invoice_parse_fallback_witness :
    (∃ refv : String, (postInvoices initStore "24" "11" exInvReq0).2.invoice_items =
      initStore.invoice_items ++ lineItemsOf refv exInvReq0) ∧
    ((postInvoices initStore "24" "11" exInvReq0).2.invoice_items.map
      (fun it => (it.quantity, it.unit_price, it.discount, it.total)) = [(1, 0, 0, 0)]) ∧
    ((postInvoices initStore "24" "11" exInvReq0).2.invoices.map
      (fun i => i.paid_amount) = [some 0]) := by
  obtain ⟨refv, hit, -, -, -, -⟩ :=
    invoice_parse_fallback initStore "24" "11" exInvReq0
      (postInvoices initStore "24" "11" exInvReq0).1
      (postInvoices initStore "24" "11" exInvReq0).2
      rfl (by with_unfolding_all rfl)
  exact ⟨⟨refv, hit⟩, by with_unfolding_all rfl, by with_unfolding_all rfl⟩
